import Mathlib

/-!
Verification development for the `dz_phonenumber` library
(`src/dz_phonenumber/__init__.py`), an Algerian phone-number parser and
validator.  The Python code is shallowly embedded below:

* a Python `str` is modelled as a `List Char` (`PyStr`); the data tables that
  the code keys by whole strings keep `String` keys;
* Python's regex character class `\d` is modelled by `Char.isDigit` (the
  ASCII decimal digits, which is what every dataset key and pattern check in
  the code uses);
* `float` literals of the dataset are carried as exact `Rat` values (no
  arithmetic is ever performed on them: they are only stored and compared);
* Python `dict` literals with duplicate keys are modelled as association
  lists in source order together with last-binding-wins lookup
  (`dictGet?`) and key membership (`dictContains`), which is exactly the
  observable behaviour of a `dict` built from such a literal;
* a Python runtime exception (e.g. `IndexError` from `num[0]`, `KeyError`
  from `d[k]`) is modelled by `Option.none`: `classifyE` is the
  exception-aware classifier and `classify` its result (proved below to
  always exist).
-/

/-- Python `str` modelled as its list of characters. -/
abbrev PyStr := List Char

/-- The `GeoCoder` dataclass: a geographical region with coordinates and
timezone.  Field defaults mirror the Python dataclass defaults. -/
structure GeoCoder where
  name : String
  longitude : Rat := 0
  latitude : Rat := 0
  altitude : Rat := 0
  timezone : String := "Africa/Algiers"
deriving DecidableEq

/-- Python `dict` key-membership test (`k in d`) for a dict built from an
association-list literal (duplicate keys allowed). -/
def dictContains {α β : Type} [DecidableEq α] (l : List (α × β)) (k : α) : Bool :=
  l.any (fun p => decide (p.1 = k))

/-- Python `dict` lookup (`d.get(k)` / `d[k]`) for a dict built from an
association-list literal: the last binding of a duplicated key wins. -/
def dictGet? {α β : Type} [DecidableEq α] (l : List (α × β)) (k : α) : Option β :=
  (l.reverse.find? (fun p => decide (p.1 = k))).map Prod.snd

/-- `_Const.LANDLINE_PATTERNS`: leading digits of landline numbers. -/
def LANDLINE_PATTERNS : List Char := ['2', '3', '4']

/-- `_Const.MOBILE_PATTERNS`: leading digits of mobile numbers. -/
def MOBILE_PATTERNS : List Char := ['5', '6', '7']

/-- `_Const.SPECIAL_PATTERNS`: leading digits of special-service numbers. -/
def SPECIAL_PATTERNS : List Char := ['8', '9']

/-- `_Const.MOBILE_CARRIERS`: leading digit to carrier name. -/
def MOBILE_CARRIERS : List (Char × String) :=
  [('5', "Ooredoo"), ('6', "Mobilis"), ('7', "Djezzy")]

/-- `_Const.NUMBER_LENGTHS['mobile']`. -/
def NUMBER_LENGTHS_mobile : Nat := 9

/-- `_Const.NUMBER_LENGTHS['landline']`. -/
def NUMBER_LENGTHS_landline : Nat := 8

/-- `_Const.NUMBER_LENGTHS['voip']`. -/
def NUMBER_LENGTHS_voip : Nat := 8

/-- `_Const.NUMBER_LENGTHS['vsat']`. -/
def NUMBER_LENGTHS_vsat : Nat := 8

/-- `_Const.LANDLINE_REGIONS`: the dict literal in source order, duplicate
keys included (`'27'`, `'29'`, `'34'`, ... each occur several times). -/
def LANDLINE_REGIONS : List (String × GeoCoder) :=
  [ ("49", ⟨"Adrar", -0.2936, 27.8743, 258, "Africa/Algiers"⟩),
    ("27", ⟨"Ain Defla", 1.9594, 36.2509, 190, "Africa/Algiers"⟩),
    ("43", ⟨"Ain Temouchent", -1.1400, 35.2970, 120, "Africa/Algiers"⟩),
    ("21", ⟨"Algiers", 3.0588, 36.7538, 10, "Africa/Algiers"⟩),
    ("38", ⟨"Annaba", 7.7667, 36.9000, 3, "Africa/Algiers"⟩),
    ("33", ⟨"Batna", 6.1697, 35.5559, 1048, "Africa/Algiers"⟩),
    ("34", ⟨"Bejaia", 5.0667, 36.7500, 2, "Africa/Algiers"⟩),
    ("25", ⟨"Blida", 2.8276, 36.4700, 260, "Africa/Algiers"⟩),
    ("35", ⟨"Bordj Bou Arreridj", 4.7611, 36.0736, 928, "Africa/Algiers"⟩),
    ("26", ⟨"Bouira", 3.9000, 36.3667, 519, "Africa/Algiers"⟩),
    ("24", ⟨"Boumerdes", 3.4772, 36.7664, 10, "Africa/Algiers"⟩),
    ("27", ⟨"Chlef", 1.3319, 36.1654, 114, "Africa/Algiers"⟩),
    ("31", ⟨"Constantine", 6.6147, 36.3650, 694, "Africa/Algiers"⟩),
    ("27", ⟨"Djelfa", 3.2500, 34.6667, 1143, "Africa/Algiers"⟩),
    ("32", ⟨"El Oued", 6.8639, 33.3683, 76, "Africa/Algiers"⟩),
    ("29", ⟨"Ghardaia", 3.6736, 32.4839, 572, "Africa/Algiers"⟩),
    ("37", ⟨"Guelma", 7.4264, 36.4614, 290, "Africa/Algiers"⟩),
    ("29", ⟨"Illizi", 8.4667, 26.4833, 558, "Africa/Algiers"⟩),
    ("34", ⟨"Jijel", 5.7667, 36.8167, 10, "Africa/Algiers"⟩),
    ("32", ⟨"Khenchela", 7.1464, 35.4269, 1122, "Africa/Algiers"⟩),
    ("29", ⟨"Laghouat", 2.8667, 33.8000, 769, "Africa/Algiers"⟩),
    ("35", ⟨"M'sila", 4.5333, 35.7000, 471, "Africa/Algiers"⟩),
    ("45", ⟨"Mascara", 0.1408, 35.4000, 570, "Africa/Algiers"⟩),
    ("25", ⟨"Medea", 2.7583, 36.2675, 920, "Africa/Algiers"⟩),
    ("31", ⟨"Mila", 6.2647, 36.4503, 470, "Africa/Algiers"⟩),
    ("45", ⟨"Mostaganem", 0.0892, 35.9333, 104, "Africa/Algiers"⟩),
    ("41", ⟨"Oran", -0.6333, 35.6911, 101, "Africa/Algiers"⟩),
    ("29", ⟨"Ouargla", 5.3333, 31.9500, 141, "Africa/Algiers"⟩),
    ("32", ⟨"Oum El Bouaghi", 7.1136, 35.8778, 902, "Africa/Algiers"⟩),
    ("46", ⟨"Relizane", 0.5558, 35.7372, 98, "Africa/Algiers"⟩),
    ("48", ⟨"Saida", 4.8306, 34.8303, 870, "Africa/Algiers"⟩),
    ("36", ⟨"Setif", 5.4089, 36.1919, 1096, "Africa/Algiers"⟩),
    ("48", ⟨"Sidi Bel Abbes", -0.6333, 35.2000, 470, "Africa/Algiers"⟩),
    ("38", ⟨"Skikda", 6.9094, 36.8667, 18, "Africa/Algiers"⟩),
    ("37", ⟨"Souk Ahras", 7.9514, 36.2864, 699, "Africa/Algiers"⟩),
    ("29", ⟨"Tamanrasset", 5.5167, 22.7850, 1320, "Africa/Algiers"⟩),
    ("37", ⟨"Tebessa", 8.1206, 35.4072, 858, "Africa/Algiers"⟩),
    ("46", ⟨"Tiaret", 1.3167, 35.3667, 1032, "Africa/Algiers"⟩),
    ("43", ⟨"Tlemcen", -1.3139, 34.8828, 842, "Africa/Algiers"⟩),
    ("24", ⟨"Tipaza", 2.4500, 36.5833, 120, "Africa/Algiers"⟩),
    ("46", ⟨"Tissemsilt", 1.8000, 35.6000, 850, "Africa/Algiers"⟩),
    ("26", ⟨"Tizi Ouzou", 4.0500, 36.7167, 200, "Africa/Algiers"⟩) ]

/-- `_Const.EMERGENCY_NUMBERS`. -/
def EMERGENCY_NUMBERS : List (String × String) :=
  [ ("1548", "Police Nationale"),
    ("17", "Police (Short Code)"),
    ("1055", "Gendarmerie Nationale"),
    ("1054", "Coast Guard"),
    ("14", "Protection Civile"),
    ("1021", "Civil Protection"),
    ("1040", "SAMU (Emergency Medical)"),
    ("1234", "Electricity Emergency"),
    ("1235", "Gas Emergency") ]

/-- `_Const.SPECIAL_NUMBERS`. -/
def SPECIAL_NUMBERS : List (String × String) :=
  [ ("98", "VOIP"), ("96", "VSAT"), ("97", "IoT/M2M Services") ]

/-- The attribute state of a `PhoneNumber` instance after `__init__` has
finished (`number_type = None` plays the role of the `invalid` category). -/
structure PhoneNumber where
  original_number : PyStr
  clean_number : PyStr
  number_type : Option String
  area_code : Option String
  carrier : Option String
  location : Option GeoCoder
  is_valid : Bool
deriving DecidableEq

/-- `PhoneNumber._normalize_number`: `re.sub(r'[^\d+]', '', number)` deletes
every character that is neither a decimal digit nor `+`. -/
def _normalize_number (number : PyStr) : PyStr :=
  number.filter (fun c => c.isDigit || c == '+')

/-- The `PhoneNumber` attribute state set up by `__init__` just before
`_parse_number` runs. -/
def mkPhoneNumber (number : PyStr) : PhoneNumber :=
  { original_number := number
    clean_number := _normalize_number number
    number_type := none
    area_code := none
    carrier := none
    location := none
    is_valid := false }

/-- Python `str.startswith`. -/
def startswith : PyStr → PyStr → Bool
  | _, [] => true
  | [], _ :: _ => false
  | c :: s, p :: ps => c == p && startswith s ps

/-- Lines 153-157 of `_parse_number`: the "international format" stripping
(`startswith('213')` first, then `startswith('+213')`). -/
def stripCountry (num : PyStr) : PyStr :=
  if startswith num ['2', '1', '3'] then num.drop 3
  else if startswith num ['+', '2', '1', '3'] then num.drop 4
  else num

/-- Lines 159-161 of `_parse_number`: remove one national `0` if present. -/
def stripTrunk (num : PyStr) : PyStr :=
  if startswith num ['0'] then num.drop 1 else num

/-- `PhoneNumber._parse_mobile`.  `num[0]` on an empty string would raise
`IndexError`, modelled by `none`. -/
def _parse_mobile (num : PyStr) (p : PhoneNumber) : Option PhoneNumber :=
  match num.head? with
  | none => none
  | some c =>
    if c ∈ MOBILE_PATTERNS then
      some { p with number_type := some "mobile"
                    carrier := some ((dictGet? MOBILE_CARRIERS c).getD "Unknown")
                    is_valid := true }
    else
      some p

/-- `PhoneNumber._parse_landline`.  `num[0]` on an empty string and a
failing `LANDLINE_REGIONS[area_code]` lookup would raise, modelled by
`none` (the latter is guarded by the membership test). -/
def _parse_landline (num : PyStr) (p : PhoneNumber) : Option PhoneNumber :=
  match num.head? with
  | none => none
  | some c =>
    if c ∈ LANDLINE_PATTERNS then
      if dictContains LANDLINE_REGIONS (String.mk (num.take 2)) then
        match dictGet? LANDLINE_REGIONS (String.mk (num.take 2)) with
        | some g =>
          some { p with number_type := some "landline"
                        area_code := some (String.mk (num.take 2))
                        location := some g
                        is_valid := true }
        | none => none
      else
        some p
    else
      some p

/-- The `if/elif` chain of `_parse_number` (lines 163-183), applied to the
already-stripped national number `num`. -/
def classifyNum (num : PyStr) (p : PhoneNumber) : Option PhoneNumber :=
  if (num.length = 2 ∨ num.length = 3 ∨ num.length = 4) ∧
      dictContains EMERGENCY_NUMBERS (String.mk num) = true then
    some { p with number_type := some "emergency", is_valid := true }
  else if num.length = NUMBER_LENGTHS_mobile then
    _parse_mobile num p
  else if num.length = NUMBER_LENGTHS_landline then
    _parse_landline num p
  else if num.length = NUMBER_LENGTHS_voip ∧ startswith num ['9', '8'] = true then
    some { p with number_type := some "voip", is_valid := true }
  else if num.length = NUMBER_LENGTHS_vsat ∧ startswith num ['9', '6'] = true then
    some { p with number_type := some "vsat", is_valid := true }
  else
    some { p with is_valid := false }

/-- `PhoneNumber._parse_number`: strip the country and trunk digits from
`self.clean_number`, then run the classification chain. -/
def _parse_number (p : PhoneNumber) : Option PhoneNumber :=
  classifyNum (stripTrunk (stripCountry p.clean_number)) p

/-- `PhoneNumber.__init__`, exception-aware: `none` models an uncaught
Python exception during construction. -/
def classifyE (number : PyStr) : Option PhoneNumber :=
  _parse_number (mkPhoneNumber number)

/-- The constructed `PhoneNumber` (proved below to always exist). -/
def classify (number : PyStr) : PhoneNumber :=
  (classifyE number).getD (mkPhoneNumber number)

/-- `PhoneNumber.is_mobile` (`self.number_type == 'mobile'`). -/
def PhoneNumber.is_mobile (p : PhoneNumber) : Bool :=
  p.number_type == some "mobile"

/-- `PhoneNumber.is_landline`. -/
def PhoneNumber.is_landline (p : PhoneNumber) : Bool :=
  p.number_type == some "landline"

/-- `PhoneNumber.is_emergency`. -/
def PhoneNumber.is_emergency (p : PhoneNumber) : Bool :=
  p.number_type == some "emergency"

/-- `PhoneNumber.is_voip`. -/
def PhoneNumber.is_voip (p : PhoneNumber) : Bool :=
  p.number_type == some "voip"

/-- `PhoneNumber.is_vsat`. -/
def PhoneNumber.is_vsat (p : PhoneNumber) : Bool :=
  p.number_type == some "vsat"

/-- Every key that passes the membership test of a dict also has a value. -/
lemma dictGet?_isSome {α β : Type} [DecidableEq α] (l : List (α × β)) (k : α)
    (h : dictContains l k = true) : ∃ v, dictGet? l k = some v := by
  unfold dictContains at h
  unfold dictGet?
  rcases List.any_eq_true.mp h with ⟨p, hp, hpk⟩
  have hmem : p ∈ l.reverse := List.mem_reverse.mpr hp
  have hs : (l.reverse.find? (fun q => decide (q.1 = k))).isSome := by
    rw [List.find?_isSome]
    exact ⟨p, hmem, hpk⟩
  rcases Option.isSome_iff_exists.mp hs with ⟨q, hq⟩
  exact ⟨q.2, by rw [hq]; rfl⟩

/-- A successful dict lookup returns the value of a pair of the literal
whose key is the looked-up key. -/
lemma dictGet?_mem {α β : Type} [DecidableEq α] {l : List (α × β)} {k : α} {v : β}
    (h : dictGet? l k = some v) : (k, v) ∈ l := by
  unfold dictGet? at h
  rcases Option.map_eq_some'.mp h with ⟨p, hfind, hsnd⟩
  have hkey : p.1 = k := by
    have hpred := List.find?_some hfind
    simpa using hpred
  have hmem : p ∈ l := List.mem_reverse.mp (List.mem_of_find?_eq_some hfind)
  have : p = (k, v) := by
    cases p
    simp only [Prod.mk.injEq]
    exact ⟨hkey, hsnd⟩
  rwa [this] at hmem

/-- The record an emergency match produces. -/
def emergencyShape (s : PyStr) : PhoneNumber :=
  { mkPhoneNumber s with number_type := some "emergency", is_valid := true }

/-- The record a successful mobile parse produces. -/
def mobileShape (s : PyStr) (cr : String) : PhoneNumber :=
  { mkPhoneNumber s with number_type := some "mobile", carrier := some cr, is_valid := true }

/-- The record a successful landline parse produces. -/
def landlineShape (s : PyStr) (a : String) (g : GeoCoder) : PhoneNumber :=
  { mkPhoneNumber s with number_type := some "landline", area_code := some a, location := some g, is_valid := true }

/-- The four record shapes a finished construction can leave behind: the
untouched `__init__` record (invalid), or an emergency, mobile or landline
record.  Notably there is no voip or vsat shape. -/
def Shapes (s : PyStr) (r : PhoneNumber) : Prop :=
  r = mkPhoneNumber s ∨
  r = emergencyShape s ∨
  (∃ cr, cr ∈ (["Ooredoo", "Mobilis", "Djezzy"] : List String) ∧ r = mobileShape s cr) ∨
  (∃ a g, r = landlineShape s a g)

/-- Master case analysis: construction never raises and the result has one
of the four `Shapes`. -/
lemma classifyE_shape (s : PyStr) : ∃ r, classifyE s = some r ∧ Shapes s r := by
  unfold classifyE _parse_number
  generalize stripTrunk (stripCountry (mkPhoneNumber s).clean_number) = num
  unfold classifyNum
  split_ifs with h1 h2 h3 h4 h5
  · exact ⟨_, rfl, Or.inr (Or.inl rfl)⟩
  · -- length-9 branch: `_parse_mobile`
    rcases num with _ | ⟨c, t⟩
    · simp [NUMBER_LENGTHS_mobile] at h2
    · unfold _parse_mobile
      simp only [List.head?]
      by_cases hc : c ∈ MOBILE_PATTERNS
      · rw [if_pos hc]
        refine ⟨_, rfl, ?_⟩
        unfold Shapes
        right; right; left
        refine ⟨(dictGet? MOBILE_CARRIERS c).getD "Unknown", ?_, rfl⟩
        simp only [MOBILE_PATTERNS, List.mem_cons, List.not_mem_nil, or_false] at hc
        rcases hc with rfl | rfl | rfl <;> decide
      · rw [if_neg hc]
        exact ⟨_, rfl, Or.inl rfl⟩
  · -- length-8 branch: `_parse_landline`
    rcases num with _ | ⟨c, t⟩
    · simp [NUMBER_LENGTHS_landline] at h3
    · unfold _parse_landline
      simp only [List.head?]
      by_cases hc : c ∈ LANDLINE_PATTERNS
      · rw [if_pos hc]
        by_cases hcont :
            dictContains LANDLINE_REGIONS (String.mk ((c :: t).take 2)) = true
        · obtain ⟨g, hg⟩ := dictGet?_isSome _ _ hcont
          rw [if_pos hcont, hg]
          refine ⟨_, rfl, ?_⟩
          unfold Shapes
          right; right; right
          exact ⟨_, g, rfl⟩
        · rw [if_neg hcont]
          exact ⟨_, rfl, Or.inl rfl⟩
      · rw [if_neg hc]
        exact ⟨_, rfl, Or.inl rfl⟩
  · -- voip branch: unreachable (shadowed by the landline length test)
    exact absurd h4.1 h3
  · -- vsat branch: unreachable (shadowed by the landline length test)
    exact absurd h5.1 h3
  · exact ⟨_, rfl, Or.inl rfl⟩

/-- `classifyE` never fails, and agrees with `classify`. -/
lemma classifyE_eq_classify (s : PyStr) : classifyE s = some (classify s) := by
  obtain ⟨r, hr, -⟩ := classifyE_shape s
  unfold classify
  rw [hr]
  rfl

/-- The constructed result always has one of the four `Shapes`. -/
lemma classify_shapes (s : PyStr) : Shapes s (classify s) := by
  obtain ⟨r, hr, hs⟩ := classifyE_shape s
  unfold classify
  rw [hr]
  exact hs

/-- C1: refuted by the code.  `classify("98123456")` does NOT reach the VoIP
branch: the landline `elif` matches on length 8 alone, `_parse_landline`
rejects the leading `9`, and the result is invalid with no category.
Moreover no input at all can ever be classified as voip. -/
theorem C1_voip_branch_dead :
    (classify "98123456".data).is_valid = false ∧
    (classify "98123456".data).number_type = none ∧
    ∀ s : PyStr, ((classify s).number_type == some "voip") = false := by
  refine ⟨rfl, rfl, fun s => ?_⟩
  rcases classify_shapes s with h | h | ⟨cr, -, h⟩ | ⟨a, g, h⟩ <;> rw [h] <;> rfl

/-- C2: refuted by the code.  The `00 213` international dial form is never
stripped (the code only checks `startswith('213')` and `startswith('+213')`),
so `classify("00213559123456")` is invalid while the `+213` and trunk-`0`
forms of the same national number are valid mobile/Ooredoo. -/
theorem C2_00213_not_equivalent :
    (classify "00213559123456".data).is_valid = false ∧
    (classify "00213559123456".data).number_type = none ∧
    (classify "+213559123456".data).is_valid = true ∧
    (classify "+213559123456".data).number_type = some "mobile" ∧
    (classify "+213559123456".data).carrier = some "Ooredoo" ∧
    (classify "0559123456".data).is_valid = true ∧
    (classify "0559123456".data).number_type = some "mobile" ∧
    (classify "0559123456".data).carrier = some "Ooredoo" :=
  ⟨rfl, rfl, rfl, rfl, rfl, rfl, rfl, rfl⟩

/-- C3: classification is total.  For every input string the exception-aware
construction succeeds and returns the classification result: no textual
input can make the classifier fail. -/
theorem C3_classify_total (s : PyStr) : classifyE s = some (classify s) :=
  classifyE_eq_classify s

/-- C4: every constructed result satisfies the three record invariants:
`is_valid` holds exactly when a category was assigned, `carrier` is set
exactly for mobile, `area_code` and `region` are set exactly for landline. -/
theorem C4_result_invariants (s : PyStr) :
    (classify s).is_valid = ((classify s).number_type).isSome ∧
    ((classify s).carrier).isSome = ((classify s).number_type == some "mobile") ∧
    ((classify s).area_code).isSome = ((classify s).number_type == some "landline") ∧
    ((classify s).location).isSome = ((classify s).number_type == some "landline") := by
  rcases classify_shapes s with h | h | ⟨cr, -, h⟩ | ⟨a, g, h⟩ <;> rw [h] <;>
    exact ⟨rfl, rfl, rfl, rfl⟩

/-- C9: the five category predicates partition validity: a valid result
satisfies exactly one of them, an invalid result satisfies none. -/
theorem C9_predicates_partition (s : PyStr) :
    [(classify s).is_mobile, (classify s).is_landline, (classify s).is_emergency,
      (classify s).is_voip, (classify s).is_vsat].count true
      = cond (classify s).is_valid 1 0 := by
  rcases classify_shapes s with h | h | ⟨cr, -, h⟩ | ⟨a, g, h⟩ <;> rw [h] <;> rfl

/-- C10: a mobile result always carries one of the three known carriers;
the `'Unknown'` fallback of the carrier lookup is unreachable. -/
theorem C10_mobile_carrier_known (s : PyStr)
    (h : (classify s).number_type = some "mobile") :
    (classify s).carrier ∈
      ([some "Ooredoo", some "Mobilis", some "Djezzy"] : List (Option String)) ∧
    ((classify s).carrier == some "Unknown") = false := by
  rcases classify_shapes s with hs | hs | ⟨cr, hcr, hs⟩ | ⟨a, g, hs⟩ <;> rw [hs] at h ⊢
  · exact absurd (show (none : Option String) = some "mobile" from h) (by decide)
  · exact absurd (show (some "emergency" : Option String) = some "mobile" from h) (by decide)
  · simp only [List.mem_cons, List.not_mem_nil, or_false] at hcr
    rcases hcr with rfl | rfl | rfl
    · exact ⟨List.Mem.head _, rfl⟩
    · exact ⟨List.Mem.tail _ (List.Mem.head _), rfl⟩
    · exact ⟨List.Mem.tail _ (List.Mem.tail _ (List.Mem.head _)), rfl⟩
  · exact absurd (show (some "landline" : Option String) = some "mobile" from h) (by decide)

/-- Witness for C10 at the concrete mobile number `559123456`. -/
theorem C10_mobile_carrier_known_witness :
    (classify "559123456".data).carrier ∈
      ([some "Ooredoo", some "Mobilis", some "Djezzy"] : List (Option String)) ∧
    ((classify "559123456".data).carrier == some "Unknown") = false :=
  C10_mobile_carrier_known "559123456".data (by decide)

/-- C7: emergency classification is exact-key match: `"17"` is a valid
emergency number; `"170"` (length 3 but not a table key) is invalid. -/
theorem C7_emergency_exact_match :
    (classify "17".data).is_valid = true ∧
    (classify "17".data).number_type = some "emergency" ∧
    (classify "170".data).is_valid = false ∧
    (classify "170".data).number_type = none :=
  ⟨rfl, rfl, rfl, rfl⟩

/-- Modelled from the claim's words (for refutation): the normalized string
consists only of decimal digits, except possibly a single `+` at the front. -/
def claimedNormalForm : PyStr → Bool
  | '+' :: t => t.all (fun c => c.isDigit)
  | out => out.all (fun c => c.isDigit)

/-- C6 counterexample: on input `"1+2"` normalization keeps the inner `+`
(the regex `[^\d+]` spares every `+`, not only a leading one), so the output
is not of the claimed form. -/
theorem C6_cex_inner_plus_kept :
    _normalize_number "1+2".data = "1+2".data ∧
    claimedNormalForm (_normalize_number "1+2".data) = false :=
  ⟨rfl, rfl⟩

/-- C6 amended: normalization removes exactly the characters that are
neither decimal digits nor `+`: the output contains only digits and `+`
characters (a `+` may survive at any position), is a subsequence of the
input, and retains every digit and every `+` of the input. -/
theorem C6_normalize_keeps_digits_and_plus (s : PyStr) :
    (∀ c ∈ _normalize_number s, c.isDigit = true ∨ c = '+') ∧
    List.Sublist (_normalize_number s) s ∧
    (∀ c ∈ s, (c.isDigit = true ∨ c = '+') → c ∈ _normalize_number s) := by
  refine ⟨?_, List.filter_sublist s, ?_⟩
  · intro c hc
    have h := (List.mem_filter.mp hc).2
    simpa using h
  · intro c hcs hor
    refine List.mem_filter.mpr ⟨hcs, ?_⟩
    rcases hor with h | h
    · simp [h]
    · simp [h]

/-- Witness for the amended C6: the inner `+` of `"a1+2"` survives
normalization. -/
theorem C6_normalize_keeps_digits_and_plus_witness :
    '+' ∈ _normalize_number "a1+2".data :=
  (C6_normalize_keeps_digits_and_plus "a1+2".data).2.2 '+' (by decide) (Or.inr rfl)

/-- With an all-digit input, `classify` runs the length chain directly on
the prefix-stripped input. -/
lemma classify_run (s : PyStr) (h : _normalize_number s = s) :
    classify s
      = (classifyNum (stripTrunk (stripCountry s)) (mkPhoneNumber s)).getD (mkPhoneNumber s) := by
  have hc : (mkPhoneNumber s).clean_number = s := h
  unfold classify classifyE _parse_number
  rw [hc]

/-- A string whose first character is not `2` and not `+` loses nothing to
the country-code stripping. -/
lemma stripCountry_cons (c : Char) (t : PyStr) (h2 : (c == '2') = false)
    (hp : (c == '+') = false) : stripCountry (c :: t) = c :: t := by
  unfold stripCountry
  rw [if_neg (by simp [startswith, h2]), if_neg (by simp [startswith, hp])]

/-- A string whose first character is not `0` loses nothing to the trunk
stripping. -/
lemma stripTrunk_cons (c : Char) (t : PyStr) (h0 : (c == '0') = false) :
    stripTrunk (c :: t) = c :: t := by
  unfold stripTrunk
  rw [if_neg (by simp [startswith, h0])]

/-- On a length-9 input the chain reaches `_parse_mobile`. -/
lemma classifyNum_len9 (num : PyStr) (p : PhoneNumber) (h9 : num.length = 9) :
    classifyNum num p = _parse_mobile num p := by
  unfold classifyNum
  rw [if_neg (by simp [h9]), if_pos (by rw [h9]; rfl)]

/-- On a length-8 input the chain reaches `_parse_landline` (and therefore
never the voip/vsat tests). -/
lemma classifyNum_len8 (num : PyStr) (p : PhoneNumber) (h8 : num.length = 8) :
    classifyNum num p = _parse_landline num p := by
  unfold classifyNum
  rw [if_neg (by simp [h8]), if_neg (by simp [h8, NUMBER_LENGTHS_mobile]),
      if_pos (by rw [h8]; rfl)]

/-- `_parse_mobile` on an input whose leading digit is a mobile pattern. -/
lemma _parse_mobile_pos (c : Char) (t : PyStr) (p : PhoneNumber)
    (hc : c ∈ MOBILE_PATTERNS) :
    _parse_mobile (c :: t) p
      = some { p with number_type := some "mobile"
                      carrier := some ((dictGet? MOBILE_CARRIERS c).getD "Unknown")
                      is_valid := true } := by
  unfold _parse_mobile
  simp only [List.head?]
  rw [if_pos hc]

/-- C5: every string of exactly 9 decimal digits whose first digit is `5`,
`6` or `7` classifies as a valid mobile number, with the carrier given by
the fixed digit-to-carrier map. -/
theorem C5_mobile_classification (c : Char) (t : PyStr)
    (hlen : (c :: t).length = 9)
    (hdig : ∀ x ∈ c :: t, x.isDigit = true)
    (hc : c = '5' ∨ c = '6' ∨ c = '7') :
    (classify (c :: t)).is_valid = true ∧
    (classify (c :: t)).number_type = some "mobile" ∧
    (classify (c :: t)).carrier
      = some (if c = '5' then "Ooredoo" else if c = '6' then "Mobilis" else "Djezzy") := by
  have hnorm : _normalize_number (c :: t) = c :: t :=
    List.filter_eq_self.mpr (fun a ha => by simp [hdig a ha])
  rw [classify_run _ hnorm]
  rcases hc with rfl | rfl | rfl
  · rw [stripCountry_cons '5' t rfl rfl, stripTrunk_cons '5' t rfl,
        classifyNum_len9 _ _ hlen, _parse_mobile_pos _ _ _ (by decide)]
    exact ⟨rfl, rfl, rfl⟩
  · rw [stripCountry_cons '6' t rfl rfl, stripTrunk_cons '6' t rfl,
        classifyNum_len9 _ _ hlen, _parse_mobile_pos _ _ _ (by decide)]
    exact ⟨rfl, rfl, rfl⟩
  · rw [stripCountry_cons '7' t rfl rfl, stripTrunk_cons '7' t rfl,
        classifyNum_len9 _ _ hlen, _parse_mobile_pos _ _ _ (by decide)]
    exact ⟨rfl, rfl, rfl⟩

/-- Witness for C5 at the concrete mobile number `659123456`. -/
theorem C5_mobile_classification_witness :
    (classify ('6' :: "59123456".data)).is_valid = true ∧
    (classify ('6' :: "59123456".data)).number_type = some "mobile" ∧
    (classify ('6' :: "59123456".data)).carrier
      = some (if '6' = '5' then "Ooredoo" else if '6' = '6' then "Mobilis" else "Djezzy") :=
  C5_mobile_classification '6' "59123456".data (by decide) (by decide)
    (Or.inr (Or.inl rfl))

/-- `_parse_landline` on an input starting with the duplicated area code
`27`: the Python dict keeps the last `'27'` binding, `Djelfa`. -/
lemma _parse_landline_27 (t : PyStr) (p : PhoneNumber) :
    _parse_landline ('2' :: '7' :: t) p
      = some { p with number_type := some "landline"
                      area_code := some "27"
                      location := some ⟨"Djelfa", 3.2500, 34.6667, 1143, "Africa/Algiers"⟩
                      is_valid := true } := rfl

/-- C8: area-code lookup is last-write-wins.  Every 8-digit string of
decimal digits starting `27` resolves to the landline region `Djelfa` (the
last `'27'` entry of the table), and no successful area-code lookup can
ever return the shadowed `'27'` entries `Ain Defla` or `Chlef`. -/
theorem C8_area27_last_write_wins :
    (∀ t : PyStr, ('2' :: '7' :: t).length = 8 →
      (∀ x ∈ '2' :: '7' :: t, x.isDigit = true) →
      (classify ('2' :: '7' :: t)).is_valid = true ∧
      (classify ('2' :: '7' :: t)).number_type = some "landline" ∧
      (classify ('2' :: '7' :: t)).area_code = some "27" ∧
      ((classify ('2' :: '7' :: t)).location).map GeoCoder.name = some "Djelfa") ∧
    (∀ k r, dictGet? LANDLINE_REGIONS k = some r →
      (r.name == "Ain Defla") = false ∧ (r.name == "Chlef") = false) := by
  constructor
  · intro t h8 hdig
    have hnorm : _normalize_number ('2' :: '7' :: t) = '2' :: '7' :: t :=
      List.filter_eq_self.mpr (fun a ha => by simp [hdig a ha])
    rw [classify_run _ hnorm,
        show stripCountry ('2' :: '7' :: t) = '2' :: '7' :: t from rfl,
        stripTrunk_cons '2' ('7' :: t) rfl, classifyNum_len8 _ _ h8,
        _parse_landline_27]
    exact ⟨rfl, rfl, rfl, rfl⟩
  · intro k r hget
    have hmem : (k, r) ∈ LANDLINE_REGIONS := dictGet?_mem hget
    have keyA : ∀ q ∈ LANDLINE_REGIONS, (q.2.name == "Ain Defla") = true → q.1 = "27" := by
      decide
    have keyC : ∀ q ∈ LANDLINE_REGIONS, (q.2.name == "Chlef") = true → q.1 = "27" := by
      decide
    have h27 : dictGet? LANDLINE_REGIONS "27"
        = some ⟨"Djelfa", 3.2500, 34.6667, 1143, "Africa/Algiers"⟩ := rfl
    constructor
    · cases hb : r.name == "Ain Defla" with
      | false => rfl
      | true =>
        have hk : k = "27" := keyA (k, r) hmem hb
        subst hk
        have hr : r = ⟨"Djelfa", 3.2500, 34.6667, 1143, "Africa/Algiers"⟩ :=
          (Option.some.inj (h27.symm.trans hget)).symm
        rw [hr] at hb
        exact absurd hb (by decide)
    · cases hb : r.name == "Chlef" with
      | false => rfl
      | true =>
        have hk : k = "27" := keyC (k, r) hmem hb
        subst hk
        have hr : r = ⟨"Djelfa", 3.2500, 34.6667, 1143, "Africa/Algiers"⟩ :=
          (Option.some.inj (h27.symm.trans hget)).symm
        rw [hr] at hb
        exact absurd hb (by decide)

/-- Witness for C8: the concrete input `27123456` resolves to `Djelfa`, and
the `'49'` lookup (Adrar) is neither of the shadowed names. -/
theorem C8_area27_last_write_wins_witness :
    ((classify ('2' :: '7' :: "123456".data)).is_valid = true ∧
     (classify ('2' :: '7' :: "123456".data)).number_type = some "landline" ∧
     (classify ('2' :: '7' :: "123456".data)).area_code = some "27" ∧
     ((classify ('2' :: '7' :: "123456".data)).location).map GeoCoder.name
       = some "Djelfa") ∧
    (((⟨"Adrar", -0.2936, 27.8743, 258, "Africa/Algiers"⟩ : GeoCoder).name
        == "Ain Defla") = false ∧
     ((⟨"Adrar", -0.2936, 27.8743, 258, "Africa/Algiers"⟩ : GeoCoder).name
        == "Chlef") = false) :=
  ⟨C8_area27_last_write_wins.1 "123456".data (by decide) (by decide),
   C8_area27_last_write_wins.2 "49" ⟨"Adrar", -0.2936, 27.8743, 258, "Africa/Algiers"⟩ rfl⟩

